import Mathlib

/-!
Verification of the libsql-js binding layer (better-sqlite3 compatible
libSQL bindings for Node).  The JavaScript sources are shallowly embedded:
pure control flow becomes Lean functions, the native engine's stateful
behaviour is threaded explicitly, and throwing code returns `Except` /
tagged results.  Parts implemented by the native (Rust) engine, which is
not part of the JavaScript sources, are modelled from the specification
and marked as such in their doc comments.
-/

namespace LibsqlJs

/-- A JavaScript runtime value, restricted to the shapes the binding layer
inspects: `undefined`, `null`, booleans, numbers (modelled as integers;
the binding never does float arithmetic on them), strings, arrays
(carrying their elements, needed for `Array.prototype.flat`), plain
objects and functions (carrying an opaque identity). -/
inductive JsVal where
  | undef
  | jsNull
  | bool (b : Bool)
  | num (n : Int)
  | str (s : String)
  | arr (elems : List JsVal)
  | obj (id : Nat)
  | func (id : Nat)

/-- JavaScript `typeof`. Note `typeof null = "object"` and
`typeof [] = "object"`. -/
def JsVal.typeOf : JsVal → String
  | .undef => "undefined"
  | .jsNull => "object"
  | .bool _ => "boolean"
  | .num _ => "number"
  | .str _ => "string"
  | .arr _ => "object"
  | .obj _ => "object"
  | .func _ => "function"

/-- JavaScript truthiness: `undefined`, `null`, `false`, `0` and `""` are
falsy, everything else is truthy. -/
def JsVal.truthy : JsVal → Bool
  | .undef => false
  | .jsNull => false
  | .bool b => b
  | .num n => n != 0
  | .str s => s != ""
  | .arr _ => true
  | .obj _ => true
  | .func _ => true

/-- JavaScript strict equality `v === "lit"` of an arbitrary value against
a string literal: true exactly when `v` is that string. -/
def JsVal.eqStr : JsVal → String → Bool
  | .str s, t => s = t
  | _, _ => false

/-! ## Error translator (`convertError` in `wrapper.js`) -/

/-- The outcome of `JSON.parse` on an error message, restricted to the
fields `convertError` reads (`libsqlError`, `code`, `rawCode`,
`message`); an absent field is `JsVal.undef`.  `prim` covers parses that
yield a primitive (null, boolean, number, string), on which every field
access yields `undefined`. -/
inductive ParsedJson where
  | prim (v : JsVal)
  | objData (libsqlError code rawCode message : JsVal)

/-- The `message` property of a native failure as `convertError` sees it:
either not a string at all (`typeof err.message !== 'string'`), a string
`JSON.parse` rejects, or a string that parses to `data`. -/
inductive NativeMessage where
  | notString (v : JsVal)
  | nonJson (s : String)
  | json (s : String) (data : ParsedJson)

/-- A native failure value (the `err` argument of `convertError`). -/
structure NativeError where
  message : NativeMessage

/-- What `convertError` returns: a `SqliteError` (message, code, rawCode),
a `TypeError`, or the original error passed through unchanged. -/
inductive ConvertedError where
  | sqliteError (message : JsVal) (code : JsVal) (rawCode : JsVal)
  | typeError (message : String)
  | passthrough (e : NativeError)

/-- Function `convertError` from `wrapper.js`: if `err.message` is a string that
parses as JSON to a truthy `data` with truthy `data.libsqlError`, then
`SQLITE_AUTH` keeps the raw JSON string as the message, `SQLITE_NOTOPEN`
becomes a `TypeError`, and every other code becomes a `SqliteError` with
the decoded plain message; otherwise the error is returned unchanged.
A primitive parse result either is falsy or has an undefined
`libsqlError` field, so it always falls through to the final return. -/
def convertError (err : NativeError) : ConvertedError :=
  match err.message with
  | .notString _ => .passthrough err
  | .nonJson _ => .passthrough err
  | .json s data =>
    match data with
    | .prim _ => .passthrough err
    | .objData libsqlError code rawCode message =>
      if libsqlError.truthy then
        if code.eqStr "SQLITE_AUTH" then
          .sqliteError (.str s) code rawCode
        else if code.eqStr "SQLITE_NOTOPEN" then
          .typeError "The database connection is not open"
        else
          .sqliteError message code rawCode
      else .passthrough err

theorem JsVal.eqStr_iff (v : JsVal) (t : String) : v.eqStr t = true ↔ v = .str t := by
  cases v <;> simp [JsVal.eqStr]

/-- C2 (amended): an engine-flagged payload with the not-open code becomes
a `TypeError` with the fixed message "The database connection is not
open"; one with the authorization code becomes a `SqliteError` whose
message is the original encoded JSON payload, keeping its code and raw
code; every other engine-flagged payload becomes a `SqliteError` with the
decoded plain message, code and raw code; everything else is passed
through unchanged. -/
theorem convertError_translation (e : NativeError) :
    (∀ s lib code raw msg,
      e.message = .json s (.objData lib code raw msg) → lib.truthy = true →
        (code.eqStr "SQLITE_NOTOPEN" = true →
            convertError e = .typeError "The database connection is not open") ∧
        (code.eqStr "SQLITE_AUTH" = true →
            convertError e = .sqliteError (.str s) code raw) ∧
        (code.eqStr "SQLITE_AUTH" = false → code.eqStr "SQLITE_NOTOPEN" = false →
            convertError e = .sqliteError msg code raw)) ∧
    ((∀ s lib code raw msg,
        e.message = .json s (.objData lib code raw msg) → lib.truthy = false) →
      convertError e = .passthrough e) := by
  obtain ⟨m⟩ := e
  constructor
  · intro s lib code raw msg hm hlib
    cases hm
    refine ⟨?_, ?_, ?_⟩
    · intro hcode
      rw [JsVal.eqStr_iff] at hcode
      subst hcode
      simp [convertError, hlib, JsVal.eqStr]
    · intro hcode
      simp [convertError, hlib, hcode]
    · intro hauth hnotopen
      simp [convertError, hlib, hauth, hnotopen]
  · intro h
    cases m with
    | notString v => simp [convertError]
    | nonJson s => simp [convertError]
    | json s data =>
      cases data with
      | prim v => simp [convertError]
      | objData lib code raw msg =>
        have hlib := h s lib code raw msg rfl
        simp [convertError, hlib]

/-- A concrete native busy error carrying an engine-flagged JSON payload
with an ordinary code. -/
def busyNativeErr : NativeError :=
  ⟨.json "\x7b\"libsqlError\":true,\"code\":\"SQLITE_BUSY\",\"rawCode\":5,\"message\":\"database is locked\"\x7d"
     (.objData (.bool true) (.str "SQLITE_BUSY") (.num 5) (.str "database is locked"))⟩

/-- Witness for `convertError_translation`: the concrete busy payload is
translated to a `SqliteError` with the decoded plain message, code and
raw code. -/
theorem convertError_translation_witness :
    convertError busyNativeErr
      = .sqliteError (.str "database is locked") (.str "SQLITE_BUSY") (.num 5) :=
  ((convertError_translation busyNativeErr).1 _ _ _ _ _ rfl rfl).2.2 rfl rfl

/-- A concrete native not-open failure: engine-flagged payload whose code
is `SQLITE_NOTOPEN`. -/
def notOpenNativeErr : NativeError :=
  ⟨.json "\x7b\"libsqlError\":true,\"code\":\"SQLITE_NOTOPEN\",\"rawCode\":21,\"message\":\"not open\"\x7d"
     (.objData (.bool true) (.str "SQLITE_NOTOPEN") (.num 21) (.str "not open"))⟩

/-- C2 (counterexample): the code produces the `TypeError` message
"The database connection is not open" (capital T), not the claimed fixed
message "the database connection is not open". -/
theorem convertError_notopen_message_case :
    convertError notOpenNativeErr
        = .typeError "The database connection is not open" ∧
    convertError notOpenNativeErr
        ≠ .typeError "the database connection is not open" := by
  constructor
  · rfl
  · simp [convertError, notOpenNativeErr, JsVal.truthy, JsVal.eqStr]

/-! ## Transaction wrapper (`Database.transaction` / `wrapTxn` in
`wrapper.js`)

`db.exec` and the wrapped user function `fn` are the environment: both
thread the (opaque) database state and may throw.  `exec sql s` returns
the new state together with `some e` when it throws `e`; `fn args s`
returns the new state together with the normal result or the thrown
error. -/

/-- The environment a transaction wrapper invocation runs against:
`db.exec` and the caller-supplied function `fn`. -/
structure TxnEnv (σ ε ρ α : Type) where
  exec : String → σ → σ × Option ε
  fn : α → σ → σ × Except ε ρ

/-- One observable call made by the wrapper: an `exec` of some SQL, or
the invocation of `fn` with the caller's arguments. -/
inductive TxnEvent (α : Type) where
  | execCall (sql : String)
  | fnCall (args : α)

/-- The body of `wrapTxn(mode)` from `wrapper.js`: exec `BEGIN <mode>`,
call `fn` with the caller's arguments, exec `COMMIT` on normal return
and return `fn`'s result, exec `ROLLBACK` on a throw and re-throw the
original error; an error thrown by the `ROLLBACK` (or by the `ROLLBACK`
issued when `COMMIT` itself throws) replaces the original one.  Returns
the final state, the ordered trace of calls made, and the outcome. -/
def wrapTxn (env : TxnEnv σ ε ρ α) (mode : String) (args : α) (s : σ) :
    σ × List (TxnEvent α) × Except ε ρ :=
  match env.exec ("BEGIN " ++ mode) s with
  | (s1, some e) => (s1, [.execCall ("BEGIN " ++ mode)], .error e)
  | (s1, none) =>
    match env.fn args s1 with
    | (s2, .ok v) =>
      match env.exec "COMMIT" s2 with
      | (s3, none) =>
        (s3, [.execCall ("BEGIN " ++ mode), .fnCall args, .execCall "COMMIT"], .ok v)
      | (s3, some ec) =>
        match env.exec "ROLLBACK" s3 with
        | (s4, none) =>
          (s4, [.execCall ("BEGIN " ++ mode), .fnCall args, .execCall "COMMIT",
                .execCall "ROLLBACK"], .error ec)
        | (s4, some er) =>
          (s4, [.execCall ("BEGIN " ++ mode), .fnCall args, .execCall "COMMIT",
                .execCall "ROLLBACK"], .error er)
    | (s2, .error ef) =>
      match env.exec "ROLLBACK" s2 with
      | (s3, none) =>
        (s3, [.execCall ("BEGIN " ++ mode), .fnCall args, .execCall "ROLLBACK"], .error ef)
      | (s3, some er) =>
        (s3, [.execCall ("BEGIN " ++ mode), .fnCall args, .execCall "ROLLBACK"], .error er)

/-- The isolation modes of the four variants returned by
`Database.transaction`: default, `deferred`, `immediate`, `exclusive`. -/
def txnModes : List String := ["", "DEFERRED", "IMMEDIATE", "EXCLUSIVE"]

/-- C1: for every function `fn` and isolation-mode variant, the wrapper
first issues `BEGIN <mode>` via exec, then calls `fn` with the caller's
arguments; if `fn` returns normally the wrapper issues `COMMIT` and
returns `fn`'s result unchanged; if `fn` throws, the wrapper issues
`ROLLBACK` and re-raises the original failure unchanged, except that a
failing `ROLLBACK` is the failure surfaced to the caller. -/
theorem transaction_wrapper_protocol {σ ε ρ α : Type}
    (env : TxnEnv σ ε ρ α) (mode : String) (hmode : mode ∈ txnModes)
    (args : α) (s : σ) :
    (wrapTxn env mode args s).2.1.head? = some (.execCall ("BEGIN " ++ mode)) ∧
    (∀ s1, env.exec ("BEGIN " ++ mode) s = (s1, none) →
      (wrapTxn env mode args s).2.1.take 2
          = [.execCall ("BEGIN " ++ mode), .fnCall args] ∧
      (∀ s2 v, env.fn args s1 = (s2, Except.ok v) →
        ∀ s3, env.exec "COMMIT" s2 = (s3, none) →
          wrapTxn env mode args s
            = (s3, [.execCall ("BEGIN " ++ mode), .fnCall args, .execCall "COMMIT"],
               Except.ok v)) ∧
      (∀ s2 ef, env.fn args s1 = (s2, Except.error ef) →
        (∀ s3, env.exec "ROLLBACK" s2 = (s3, none) →
          wrapTxn env mode args s
            = (s3, [.execCall ("BEGIN " ++ mode), .fnCall args, .execCall "ROLLBACK"],
               Except.error ef)) ∧
        (∀ s3 er, env.exec "ROLLBACK" s2 = (s3, some er) →
          wrapTxn env mode args s
            = (s3, [.execCall ("BEGIN " ++ mode), .fnCall args, .execCall "ROLLBACK"],
               Except.error er)))) := by
  constructor
  · cases h1 : env.exec ("BEGIN " ++ mode) s with
    | mk s1 e1 =>
      cases e1 with
      | some e => simp [wrapTxn, h1]
      | none =>
        cases h2 : env.fn args s1 with
        | mk s2 r =>
          cases r with
          | ok v =>
            cases h3 : env.exec "COMMIT" s2 with
            | mk s3 e3 =>
              cases e3 with
              | none => simp [wrapTxn, h1, h2, h3]
              | some ec =>
                cases h4 : env.exec "ROLLBACK" s3 with
                | mk s4 e4 => cases e4 <;> simp [wrapTxn, h1, h2, h3, h4]
          | error ef =>
            cases h3 : env.exec "ROLLBACK" s2 with
            | mk s3 e3 => cases e3 <;> simp [wrapTxn, h1, h2, h3]
  · intro s1 h1
    refine ⟨?_, ?_, ?_⟩
    · cases h2 : env.fn args s1 with
      | mk s2 r =>
        cases r with
        | ok v =>
          cases h3 : env.exec "COMMIT" s2 with
          | mk s3 e3 =>
            cases e3 with
            | none => simp [wrapTxn, h1, h2, h3]
            | some ec =>
              cases h4 : env.exec "ROLLBACK" s3 with
              | mk s4 e4 => cases e4 <;> simp [wrapTxn, h1, h2, h3, h4]
        | error ef =>
          cases h3 : env.exec "ROLLBACK" s2 with
          | mk s3 e3 => cases e3 <;> simp [wrapTxn, h1, h2, h3]
    · intro s2 v h2 s3 h3
      simp [wrapTxn, h1, h2, h3]
    · intro s2 ef h2
      constructor
      · intro s3 h3
        simp [wrapTxn, h1, h2, h3]
      · intro s3 er h3
        simp [wrapTxn, h1, h2, h3]

/-- A concrete environment for exercising the transaction wrapper:
state is a counter bumped by every exec, `fn` returns its argument. -/
def txnDemoEnv : TxnEnv Nat String Nat Nat where
  exec := fun _ s => (s + 1, none)
  fn := fun a s => (s, Except.ok a)

/-- Witness for `transaction_wrapper_protocol`, at the `DEFERRED` variant
with argument `7` from state `0`: the wrapper execs `BEGIN DEFERRED`,
calls `fn 7`, execs `COMMIT`, and returns `7`. -/
theorem transaction_wrapper_protocol_witness :
    wrapTxn txnDemoEnv "DEFERRED" 7 0
      = (2, [.execCall ("BEGIN " ++ "DEFERRED"), .fnCall 7, .execCall "COMMIT"],
         Except.ok 7) :=
  ((transaction_wrapper_protocol txnDemoEnv "DEFERRED" (by simp [txnModes]) 7 0).2
    1 rfl).2.1 1 7 rfl 2 rfl


/-! ## Row iteration (`Statement.iterate` / `Statement.all`)

The native cursor (implemented in the Rust layer, not part of the
JavaScript sources) is modelled from the spec as a finite, single-pass,
pull-based sequence of decoded rows. -/

/-- Modelled from the spec: `rowsNext` on the native cursor — pops the
next row of the finite result sequence, or returns `none` at
exhaustion. -/
def rowsNext (rows : List ρ) : Option ρ × List ρ :=
  match rows with
  | [] => (none, [])
  | r :: rs => (some r, rs)

/-- An iterator step result as the JS layer shapes it: `{done: true}`
or `{value: row, done: false}`. -/
inductive IterResult (ρ : Type) where
  | done
  | value (v : ρ)

/-- The state of the iterator built by `Statement.iterate` in the
experimental variant (`index.js`): `rows` is the cursor returned by
`statementRows`, or `none` when that call returned no cursor (the
`!rows` check). -/
structure ExpIter (ρ : Type) where
  rows : Option (List ρ)

/-- Method `iter.next` from the experimental `Statement.iterate` (`index.js`):
with no cursor, signal done; otherwise pull `rowsNext`; a null row
signals done, otherwise yield the row. -/
def expIterNext (it : ExpIter ρ) : IterResult ρ × ExpIter ρ :=
  match it.rows with
  | none => (.done, it)
  | some rows =>
    match rowsNext rows with
    | (none, rows1) => (.done, ⟨some rows1⟩)
    | (some r, rows1) => (.value r, ⟨some rows1⟩)

/-- The iterator state after `n` calls to `next`. -/
def expIterAfter (it : ExpIter ρ) : Nat → ExpIter ρ
  | 0 => it
  | n + 1 => expIterAfter (expIterNext it).2 n

/-- The result of the `n`-th (0-based) call to `next` on the iterator. -/
def expIterResultAt (it : ExpIter ρ) (n : Nat) : IterResult ρ :=
  (expIterNext (expIterAfter it n)).1

theorem expIterNext_done_stable {ρ : Type} (st : ExpIter ρ)
    (h : (expIterNext st).1 = .done) :
    (expIterNext (expIterNext st).2).1 = .done := by
  obtain ⟨rows⟩ := st
  cases rows with
  | none => simpa [expIterNext] using h
  | some l =>
    cases l with
    | nil => simp [expIterNext, rowsNext]
    | cons r rs => simp [expIterNext, rowsNext] at h

theorem expIterAfter_succ {ρ : Type} (it : ExpIter ρ) (n : Nat) :
    expIterAfter it (n + 1) = (expIterNext (expIterAfter it n)).2 := by
  induction n generalizing it with
  | zero => rfl
  | succ n ih =>
    rw [show n + 1 + 1 = n + 1 + 1 from rfl]
    calc expIterAfter it (n + 1 + 1)
        = expIterAfter (expIterNext it).2 (n + 1) := rfl
      _ = (expIterNext (expIterAfter (expIterNext it).2 n)).2 := ih _
      _ = (expIterNext (expIterAfter it (n + 1))).2 := rfl

/-- C4: iterator exhaustion is permanent — once a `next()` call on an
iterator returned by `Statement.iterate` reports done, every later
`next()` call on the same iterator also reports done. -/
theorem iterator_exhaustion_permanent {ρ : Type} (it : ExpIter ρ) (k : Nat)
    (h : expIterResultAt it k = .done) :
    ∀ m, k ≤ m → expIterResultAt it m = .done := by
  intro m hm
  obtain ⟨j, rfl⟩ := Nat.le.dest hm
  induction j with
  | zero => exact h
  | succ j ih =>
    have hj := ih (Nat.le_add_right _ _)
    show expIterResultAt it (k + j + 1) = .done
    unfold expIterResultAt at hj ⊢
    rw [expIterAfter_succ]
    exact expIterNext_done_stable _ hj

/-- Witness for `iterator_exhaustion_permanent`: a one-row iterator is
done at call 1, hence also at call 3. -/
theorem iterator_exhaustion_permanent_witness :
    expIterResultAt (⟨some [5]⟩ : ExpIter Nat) 3 = .done :=
  iterator_exhaustion_permanent ⟨some [5]⟩ 1 rfl 3 (by decide)

/-- Modelled from the spec: `iteratorNextSync` on the native iterator of
`wrapper.js` — pulls the cursor; exhaustion gives a done result,
otherwise the next row value. -/
def iteratorNextSync (rows : List ρ) : IterResult ρ × List ρ :=
  match rowsNext rows with
  | (none, rows1) => (.done, rows1)
  | (some r, rows1) => (.value r, rows1)

/-- Method `Statement.all` from `wrapper.js`: build the iterator via `iterate`
and repeatedly call `next()` until it reports done, pushing each value
in order. -/
def statementAll (rows : List ρ) : List ρ :=
  match h : iteratorNextSync rows with
  | (.done, _) => []
  | (.value v, rest) => v :: statementAll rest
termination_by rows.length
decreasing_by
  cases rows with
  | nil => simp [iteratorNextSync, rowsNext] at h
  | cons r rs =>
    simp [iteratorNextSync, rowsNext] at h
    simp [h.2]

/-- The spec side of the refinement: the ordered sequence of row values
obtained by pulling the row iterator until it signals done (one row is
consumed per pull, in result order). -/
def iterateToExhaustion : List ρ → List ρ
  | [] => []
  | r :: rs => r :: iterateToExhaustion rs

/-- Modelled from the spec: the native `statementGet` returns the first
result row, or the absent-value marker (`undefined`, here `none`) for a
statement with zero result rows. -/
def statementGet (rows : List ρ) : Option ρ := rows.head?

theorem statementAll_eq_iterateToExhaustion {ρ : Type} (rows : List ρ) :
    statementAll rows = iterateToExhaustion rows := by
  induction rows with
  | nil => rw [statementAll]; simp [iteratorNextSync, rowsNext, iterateToExhaustion]
  | cons r rs ih =>
    rw [statementAll]
    simp [iteratorNextSync, rowsNext, iterateToExhaustion, ih]

/-- C3: for every statement and parameter binding, `all` returns exactly
the ordered sequence the iterator from `iterate` yields until done; with
zero result rows `all` returns the empty sequence and `get` the
absent-value marker. -/
theorem statement_all_drives_iterate {π ρ : Type}
    (execRows : π → List ρ) (params : π) :
    statementAll (execRows params) = iterateToExhaustion (execRows params) ∧
    (execRows params = [] →
      statementAll (execRows params) = [] ∧ statementGet (execRows params) = none) := by
  refine ⟨statementAll_eq_iterateToExhaustion _, ?_⟩
  intro h
  rw [h]
  exact ⟨by rw [statementAll_eq_iterateToExhaustion]; rfl, rfl⟩

/-- Witness for `statement_all_drives_iterate`: a three-row result is
returned in order by `all`, and a zero-row result gives `[]` from `all`
and the absent marker from `get`. -/
theorem statement_all_drives_iterate_witness :
    (statementAll [10, 20, 30] = iterateToExhaustion [10, 20, 30] ∧
      statementAll ([] : List Nat) = [] ∧ statementGet ([] : List Nat) = none) :=
  ⟨(statement_all_drives_iterate (fun _ : Unit => [10, 20, 30]) ()).1,
   (statement_all_drives_iterate (fun _ : Unit => ([] : List Nat)) ()).2 rfl⟩


/-! ## Authorization gate (`auth.js`, `Database.authorizer`,
`Database.prepare`)

The rule lookup and denial happen in the native engine during prepare;
that part is modelled from the spec.  The wrapper-side `prepare` and the
error translation are taken from `wrapper.js`. -/

/-- Constant `Authorization.ALLOW` from `auth.js`: allow access to a resource. -/
def Authorization.ALLOW : Nat := 0

/-- Constant `Authorization.DENY` from `auth.js`: deny access to a resource and
throw an error in `prepare()`. -/
def Authorization.DENY : Nat := 1

/-- A SQL statement together with the tables it references (determined
by the native engine's parse; kept abstract here). -/
structure SqlStmt where
  sql : String
  tables : List String

/-- Rule lookup in an installed rule set (table name to outcome). -/
def lookupRule (rules : List (String × Nat)) (t : String) : Option Nat :=
  (rules.find? (fun p => p.1 == t)).map Prod.snd

/-- Modelled from the spec: during `prepare` the native engine treats a
referenced table as denied unless the rule set maps it to `ALLOW`;
absence of a rule is deny. -/
def tableDenied (rules : List (String × Nat)) (t : String) : Bool :=
  match lookupRule rules t with
  | some a => a != Authorization.ALLOW
  | none => true

/-- Modelled from the spec: the engine-flagged payload the native engine
raises on an authorization denial, carrying the fixed `SQLITE_AUTH`
code (raw code 23). -/
def authDenialPayload : String :=
  "\x7b\"libsqlError\":true,\"code\":\"SQLITE_AUTH\",\"rawCode\":23,\"message\":\"Authorization denied\"\x7d"

/-- The native authorization-denial error value. -/
def authDenialError : NativeError :=
  ⟨.json authDenialPayload
     (.objData (.bool true) (.str "SQLITE_AUTH") (.num 23)
       (.str "Authorization denied"))⟩

/-- Modelled from the spec: `databasePrepareSync` consults the installed
rule set for every table referenced by the statement; on any denial it
throws the `SQLITE_AUTH` payload, otherwise it returns the compiled
statement handle. -/
def databasePrepareSync (rules : List (String × Nat)) (stmt : SqlStmt) :
    Except NativeError SqlStmt :=
  if stmt.tables.any (tableDenied rules) then .error authDenialError
  else .ok stmt

/-- Method `Database.prepare` from `wrapper.js`: call the native prepare and
hand back the statement handle, converting any thrown error via
`convertError`. -/
def databasePrepare (rules : List (String × Nat)) (stmt : SqlStmt) :
    Except ConvertedError SqlStmt :=
  match databasePrepareSync rules stmt with
  | .ok h => .ok h
  | .error e => .error (convertError e)

/-- C5: with a rule set installed, any referenced table without a rule is
treated as denied, and on any denial `prepare` fails with a database
error carrying the fixed `SQLITE_AUTH` code and returns no statement
handle. -/
theorem prepare_authorization (rules : List (String × Nat)) (stmt : SqlStmt) :
    (∀ t, t ∈ stmt.tables → lookupRule rules t = none →
        tableDenied rules t = true) ∧
    (∀ t, t ∈ stmt.tables → tableDenied rules t = true →
      databasePrepare rules stmt
          = .error (.sqliteError (.str authDenialPayload)
              (.str "SQLITE_AUTH") (.num 23)) ∧
      ∀ h, databasePrepare rules stmt ≠ .ok h) := by
  constructor
  · intro t _ hnone
    simp [tableDenied, hnone]
  · intro t ht hdeny
    have hany : stmt.tables.any (tableDenied rules) = true :=
      List.any_eq_true.mpr ⟨t, ht, hdeny⟩
    constructor
    · simp [databasePrepare, databasePrepareSync, hany, convertError,
        authDenialError, JsVal.truthy, JsVal.eqStr]
    · intro h
      simp [databasePrepare, databasePrepareSync, hany]

/-- Witness for `prepare_authorization`: with an empty rule set, a
statement referencing `users` (which has no rule) is denied, `prepare`
raises the `SQLITE_AUTH` database error and returns no handle. -/
theorem prepare_authorization_witness :
    tableDenied [] "users" = true ∧
    databasePrepare [] ⟨"SELECT * FROM users", ["users"]⟩
        = .error (.sqliteError (.str authDenialPayload)
            (.str "SQLITE_AUTH") (.num 23)) :=
  ⟨(prepare_authorization [] ⟨"SELECT * FROM users", ["users"]⟩).1 "users"
      (by simp) rfl,
   ((prepare_authorization [] ⟨"SELECT * FROM users", ["users"]⟩).2 "users"
      (by simp) rfl).1⟩

/-! ## Connection attributes: `inTransaction` and `memory` -/

/-- Modelled from the spec: the native connection state, with the
engine's current in-transaction flag (the negation of autocommit). -/
structure NativeDbState where
  inTxn : Bool

/-- Modelled from the spec: the native `inTransaction()` query reports
the engine's current transaction state. -/
def databaseInTransaction (s : NativeDbState) : Bool := s.inTxn

/-- The `inTransaction` getter installed by the `wrapper.js` `Database`
constructor (also the promise variant of `index.js`): each read calls
`db.inTransaction()` on the native handle; nothing is cached. -/
def wrapperInTransaction (s : NativeDbState) : Bool := databaseInTransaction s

/-- The experimental-variant `Database` object (first variant in
`index.js`): plain data fields assigned once by the constructor. -/
structure ExpDatabase where
  dbState : NativeDbState
  memory : Bool
  readonly : Bool
  name : String
  isOpen : Bool
  inTransaction : Bool

/-- The experimental-variant constructor (`index.js`): opens the native
handle for `path` and sets `memory = false`, `readonly = false`,
`name = ""`, `open = true` and `inTransaction = false` as plain fields,
for every path. -/
def expDatabaseNew (path : String) (nativeState : NativeDbState) : ExpDatabase :=
  let _ := path
  { dbState := nativeState, memory := false, readonly := false,
    name := "", isOpen := true, inTransaction := false }

/-- The experimental-variant `exec`: runs the SQL on the native handle
(here: an arbitrary native state transition); the JS object's own fields
are untouched. -/
def expExec (run : NativeDbState → NativeDbState) (d : ExpDatabase) : ExpDatabase :=
  { d with dbState := run d.dbState }

/-- C6 (amended): in the `wrapper.js` and promise variants the
`inTransaction` attribute is a live getter: after any sequence of
operations on the native handle, reading it returns exactly the native
engine's current in-transaction state (it is derived, never cached). -/
theorem inTransaction_reads_native_state
    (ops : List (NativeDbState → NativeDbState)) (s0 : NativeDbState) :
    wrapperInTransaction (ops.foldl (fun s f => f s) s0)
      = databaseInTransaction (ops.foldl (fun s f => f s) s0) := rfl

/-- C6 (counterexample): in the experimental variant `inTransaction` is a
field set to `false` by the constructor and never updated — after an exec
that opens a transaction on the native handle, the attribute still reads
`false` while the native engine reports being inside a transaction. -/
theorem inTransaction_cached_in_experimental :
    (expExec (fun _ => ⟨true⟩) (expDatabaseNew ":memory:" ⟨false⟩)).inTransaction
        = false ∧
    databaseInTransaction
        (expExec (fun _ => ⟨true⟩) (expDatabaseNew ":memory:" ⟨false⟩)).dbState
        = true :=
  ⟨rfl, rfl⟩

/-- The `memory` attribute assigned by the promise-variant constructor
(`index.js`): `this.memory = path === ":memory:"`. -/
def promiseMemory (path : String) : Bool := path == ":memory:"

/-- The native database handle as far as the `wrapper.js` constructor
reads it: its `memory` flag. -/
structure NativeDbHandle where
  memory : Bool

/-- Modelled from the spec: opening the native handle sets its `memory`
flag true iff the target is the in-memory sentinel (file paths and
remote URLs give false). -/
def nativeOpen (path : String) : NativeDbHandle :=
  ⟨path == ":memory:"⟩

/-- The `memory` attribute assigned by the `wrapper.js` constructor:
`this.memory = this.db.memory`, copied from the native handle. -/
def wrapperMemory (db : NativeDbHandle) : Bool := db.memory

/-- C7 (amended): in the promise variant the constructor sets `memory`
true iff the target equals the in-memory sentinel `":memory:"`; in the
`wrapper.js` variant `memory` is copied from the native handle's flag,
which is set on open true iff the target is the sentinel, so the same
iff holds there; the experimental-variant constructor sets
`memory = false` for every target, including the sentinel. -/
theorem memory_iff_memory_sentinel (path : String) (s : NativeDbState) :
    (promiseMemory path = true ↔ path = ":memory:") ∧
    (wrapperMemory (nativeOpen path) = true ↔ path = ":memory:") ∧
    (expDatabaseNew path s).memory = false := by
  refine ⟨?_, ?_, rfl⟩
  · simp [promiseMemory]
  · simp [wrapperMemory, nativeOpen]

/-- Witness for `memory_iff_memory_sentinel`: the promise and wrapper
variants report `memory = true` for the sentinel, and the experimental
variant reports `memory = false` for a file path. -/
theorem memory_iff_memory_sentinel_witness :
    promiseMemory ":memory:" = true ∧
    wrapperMemory (nativeOpen ":memory:") = true ∧
    (expDatabaseNew "hello.db" ⟨false⟩).memory = false :=
  ⟨(memory_iff_memory_sentinel ":memory:" ⟨false⟩).1.mpr rfl,
   (memory_iff_memory_sentinel ":memory:" ⟨false⟩).2.1.mpr rfl,
   (memory_iff_memory_sentinel "hello.db" ⟨false⟩).2.2⟩

/-- C7 (counterexample): the experimental-variant constructor opened on
the in-memory sentinel still reports `memory = false`. -/
theorem memory_false_for_experimental_memory_target :
    (expDatabaseNew ":memory:" ⟨false⟩).memory = false := rfl


/-! ## `Database.sync` -/

/-- The result object the native `databaseSyncSync` returns: the two
counters reported by the engine for the sync, plus whatever extra fields
the native layer may include. -/
structure NativeSyncResult where
  frames_synced : Int
  replication_index : Int
  extraFields : List (String × JsVal)

/-- The object `Database.sync` in `wrapper.js` builds: exactly the
fields `frames_synced` and `replication_index`. -/
structure SyncResult where
  frames_synced : Int
  replication_index : Int

/-- Method `Database.sync` from `wrapper.js`: run the native sync; on success
return an object with exactly `frames_synced` and `replication_index`
copied from the native result; on failure re-throw through
`convertError`. -/
def databaseSync (res : Except NativeError NativeSyncResult) :
    Except ConvertedError SyncResult :=
  match res with
  | .ok r => .ok ⟨r.frames_synced, r.replication_index⟩
  | .error e => .error (convertError e)

/-- Method `Database.sync` in the promise variant (`index.js`): calls
`databaseSyncAsync` for effect and discards its result, so the method
returns `undefined`. -/
def promiseSync (r : NativeSyncResult) : JsVal :=
  let _ := r
  JsVal.undef

/-- C8 (amended): in the `wrapper.js` variant, a successful `sync()`
returns an object with exactly the fields `frames_synced` and
`replication_index`, copied from the native engine's counters for that
sync; the promise variant discards the native result and returns
`undefined`. -/
theorem sync_returns_counters (r : NativeSyncResult) :
    databaseSync (.ok r) = .ok ⟨r.frames_synced, r.replication_index⟩ ∧
    promiseSync r = .undef :=
  ⟨rfl, rfl⟩

/-- C8 (counterexample): the promise-variant `sync` returns `undefined`
even for a successful native sync reporting counters — not an object
carrying `frames_synced`/`replication_index` (its `typeof` is not even
"object"). -/
theorem promise_sync_returns_undefined :
    promiseSync ⟨5, 100, []⟩ = .undef ∧
    (promiseSync ⟨5, 100, []⟩).typeOf = "undefined" :=
  ⟨rfl, rfl⟩

/-! ## `Database.pragma` -/

/-- The `options` argument of `pragma`, partitioned exactly as the code
distinguishes inputs: `omitted` covers `undefined` and `null` (the loose
`options == null` check replaces them with an empty object), `nonObject`
any value with `typeof` other than "object", and `object` an object
together with its `simple` property (`undef` when absent). -/
inductive PragmaOptions where
  | omitted
  | nonObject (v : JsVal)
  | object (simple : JsVal)

/-- A pragma result: the plucked first column of the first row (simple
mode), or the full ordered row set. -/
inductive PragmaResult (α : Type) where
  | single (v : Option α)
  | rows (rs : List (List α))

/-- An error thrown by `pragma` itself (a `TypeError` on bad arguments)
or propagated from `prepare`. -/
inductive PragmaError (ε : Type) where
  | typeError (msg : String)
  | raised (e : ε)

/-- Modelled from the spec: `stmt.pluck().get()` — the first column of
the first result row, or the absent marker when there are no rows. -/
def pluckGet (rows : List (List α)) : Option α :=
  rows.head?.bind List.head?

/-- The tail of `Database.pragma` from `wrapper.js` after the argument
checks: prepare `PRAGMA <source>` (a prepare failure propagates), then
`stmt.pluck().get()` when `simple` is truthy, else `stmt.all()`.  A
prepared statement is modelled by the rows its execution yields. -/
def pragmaRun (prep : String → Except ε (List (List α)))
    (s : String) (simple : JsVal) :
    Except (PragmaError ε) (PragmaResult α) :=
  match prep ("PRAGMA " ++ s) with
  | .error e => .error (.raised e)
  | .ok rows =>
    .ok (if simple.truthy then .single (pluckGet rows)
         else .rows (statementAll rows))

/-- Method `Database.pragma` from `wrapper.js`: `options == null` defaults to an
empty object (whose `simple` property is `undefined`); a non-string
`source` throws a `TypeError`, then a non-object `options` throws a
`TypeError`; otherwise run the pragma. -/
def pragma (prep : String → Except ε (List (List α)))
    (source : JsVal) (options : PragmaOptions) :
    Except (PragmaError ε) (PragmaResult α) :=
  match source with
  | .str s =>
    match options with
    | .nonObject _ =>
      .error (.typeError "Expected second argument to be an options object")
    | .omitted => pragmaRun prep s .undef
    | .object simple => pragmaRun prep s simple
  | _ => .error (.typeError "Expected first argument to be a string")

theorem iterateToExhaustion_eq_self {ρ : Type} (l : List ρ) :
    iterateToExhaustion l = l := by
  induction l with
  | nil => rfl
  | cons r rs ih => simp [iterateToExhaustion, ih]

/-- C9: `pragma(source, options)` executes `PRAGMA <source>` through
`prepare`; with truthy `options.simple` it returns only the first column
of the first result row (pluck-mode get), otherwise the full ordered row
set (all); a non-string `source` or non-object `options` is rejected
with a `TypeError` uniformly in the environment, i.e. before anything
executes. -/
theorem pragma_behaviour {ε α : Type}
    (prep : String → Except ε (List (List α))) (s : String)
    (simple : JsVal) (rows : List (List α)) (v : JsVal) (o : PragmaOptions) :
    (prep ("PRAGMA " ++ s) = .ok rows →
      (simple.truthy = true →
        pragma prep (.str s) (.object simple) = .ok (.single (pluckGet rows))) ∧
      (simple.truthy = false →
        pragma prep (.str s) (.object simple) = .ok (.rows rows))) ∧
    (∀ e, prep ("PRAGMA " ++ s) = .error e →
      pragma prep (.str s) (.object simple) = .error (.raised e)) ∧
    (v.typeOf ≠ "string" →
      pragma prep v o
        = .error (.typeError "Expected first argument to be a string")) ∧
    (pragma prep (.str s) (.nonObject v)
      = .error (.typeError "Expected second argument to be an options object")) := by
  refine ⟨?_, ?_, ?_, rfl⟩
  · intro hok
    constructor
    · intro hs
      simp [pragma, pragmaRun, hok, hs]
    · intro hs
      simp [pragma, pragmaRun, hok, hs,
        statementAll_eq_iterateToExhaustion, iterateToExhaustion_eq_self]
  · intro e herr
    simp [pragma, pragmaRun, herr]
  · intro hv
    cases v with
    | str t => exact absurd rfl hv
    | undef => rfl
    | jsNull => rfl
    | bool b => rfl
    | num n => rfl
    | arr xs => rfl
    | obj i => rfl
    | func i => rfl

/-- A concrete prepare environment for the pragma witness: every SQL text
compiles to a statement yielding two two-column rows. -/
def pragmaDemoPrep : String → Except Unit (List (List Int)) :=
  fun _ => .ok [[1, 2], [3, 4]]

/-- Witness for `pragma_behaviour`: with `simple` truthy, pragma returns
the first column of the first row; without options it returns the full
row set; a numeric source is rejected with a `TypeError`. -/
theorem pragma_behaviour_witness :
    pragma pragmaDemoPrep (.str "user_version") (.object (.bool true))
        = .ok (.single (some 1)) ∧
    pragma pragmaDemoPrep (.str "user_version") (.object .undef)
        = .ok (.rows [[1, 2], [3, 4]]) ∧
    pragma pragmaDemoPrep (.num 3) (.object .undef)
        = .error (.typeError "Expected first argument to be a string") :=
  ⟨((pragma_behaviour pragmaDemoPrep "user_version" (.bool true) [[1, 2], [3, 4]]
      (.num 3) (.object .undef)).1 rfl).1 rfl,
   ((pragma_behaviour pragmaDemoPrep "user_version" .undef [[1, 2], [3, 4]]
      (.num 3) (.object .undef)).1 rfl).2 rfl,
   (pragma_behaviour pragmaDemoPrep "user_version" .undef [[1, 2], [3, 4]]
      (.num 3) (.object .undef)).2.2.1 (by simp [JsVal.typeOf])⟩


/-! ## Promise-variant parameter dispatch (`Statement.run` / `get` /
`iterate` in the promise variant of `index.js`) -/

/-- JavaScript `bindParameters.flat()` (depth 1): each array argument is spliced one
level into the list, every other value is kept as-is. -/
def flatOne : List JsVal → List JsVal
  | [] => []
  | .arr xs :: rest => xs ++ flatOne rest
  | v :: rest => v :: flatOne rest

/-- What the layer forwards to the native call: a single
`typeof === "object"` argument unchanged (the named-parameter mapping
path, which also catches arrays and `null`), or a positional array. -/
inductive NativeParams where
  | direct (v : JsVal)
  | positional (vs : List JsVal)

/-- The shared dispatch of the promise-variant `Statement.run`,
`Statement.get` and `Statement.iterate`: a single argument whose
`typeof` is "object" is passed through unchanged; otherwise the argument
list is flattened one level. -/
def bindDispatch : List JsVal → NativeParams
  | [a] => if a.typeOf == "object" then .direct a else .positional (flatOne [a])
  | args => .positional (flatOne args)

/-- Promise-variant `Statement.run`: dispatch the arguments, call the
native `statementRun`, and re-wrap a thrown native error as a
`SqliteError` (the conversion is the environment's `conv`). -/
def statementRunP {ε ε' ρ : Type} (conv : ε → ε')
    (native : NativeParams → Except ε ρ) (args : List JsVal) : Except ε' ρ :=
  match native (bindDispatch args) with
  | .ok v => .ok v
  | .error e => .error (conv e)

/-- Promise-variant `Statement.get`: dispatch the arguments and call the
native `statementGet`; no catch of its own. -/
def statementGetP {ε ρ : Type}
    (native : NativeParams → Except ε ρ) (args : List JsVal) : Except ε ρ :=
  native (bindDispatch args)

/-- Promise-variant `Statement.iterate`: dispatch the arguments and call
the native `statementRowsAsync`; no catch of its own. -/
def statementIterateP {ε ρ : Type}
    (native : NativeParams → Except ε ρ) (args : List JsVal) : Except ε ρ :=
  native (bindDispatch args)

/-- C10: promise-variant `run`/`get`/`iterate` forward a single
`typeof "object"` argument (including arrays and `null`) to the native
call unchanged, and in every other case flatten the argument list
exactly one level into a positional array — so `run(1, [2, 3])` binds
the same positional parameters as `run(1, 2, 3)` — and each method's
outcome is exactly the native call's outcome on the dispatched
parameters (this layer raises no error of its own for mixed input). -/
theorem promise_bind_dispatch {ε ε' ρ : Type} (conv : ε → ε')
    (native : NativeParams → Except ε ρ) :
    (∀ v : JsVal, v.typeOf = "object" → bindDispatch [v] = .direct v) ∧
    (∀ v : JsVal, v.typeOf ≠ "object" →
        bindDispatch [v] = .positional (flatOne [v])) ∧
    (∀ a b args, bindDispatch (a :: b :: args)
        = .positional (flatOne (a :: b :: args))) ∧
    bindDispatch [] = .positional [] ∧
    bindDispatch [.num 1, .arr [.num 2, .num 3]]
        = bindDispatch [.num 1, .num 2, .num 3] ∧
    (∀ args, statementGetP native args = native (bindDispatch args)) ∧
    (∀ args, statementIterateP native args = native (bindDispatch args)) ∧
    (∀ args v, native (bindDispatch args) = .ok v →
        statementRunP conv native args = .ok v) ∧
    (∀ args e, native (bindDispatch args) = .error e →
        statementRunP conv native args = .error (conv e)) := by
  refine ⟨?_, ?_, ?_, rfl, rfl, fun _ => rfl, fun _ => rfl, ?_, ?_⟩
  · intro v hv
    simp [bindDispatch, hv]
  · intro v hv
    simp [bindDispatch, hv]
  · intro a b args
    rfl
  · intro args v hok
    simp [statementRunP, hok]
  · intro args e herr
    simp [statementRunP, herr]

/-- A concrete native call for the dispatch witness: echo the dispatched
parameters. -/
def bindDemoNative : NativeParams → Except Unit NativeParams :=
  fun p => .ok p

/-- Witness for `promise_bind_dispatch`: `null` as single argument is
forwarded unchanged, and `run(1, [2, 3])` reaches the native call as the
positional array `[1, 2, 3]`. -/
theorem promise_bind_dispatch_witness :
    bindDispatch [JsVal.jsNull] = .direct .jsNull ∧
    statementRunP (fun e : Unit => e) bindDemoNative
        [.num 1, .arr [.num 2, .num 3]]
      = .ok (.positional [.num 1, .num 2, .num 3]) :=
  ⟨(promise_bind_dispatch (fun e : Unit => e) bindDemoNative).1 .jsNull rfl,
   (promise_bind_dispatch (fun e : Unit => e) bindDemoNative).2.2.2.2.2.2.2.1
     [.num 1, .arr [.num 2, .num 3]] (.positional [.num 1, .num 2, .num 3]) rfl⟩

end LibsqlJs
